import Mathlib

/-!
Verification development for the loudframe device-manager core
(device_scanner.py, batch_controller.py, id_manager.py).

Python dictionaries are embedded as association lists with the
insertion-order semantics of CPython dicts: lookup returns the first
(and in a real dict, only) binding of a key; assignment to an existing
key replaces its value in place, assignment to a fresh key appends at
the end.  JSON values are embedded as the inductive `Val`; a JSON
object (a device record) is a `String`-keyed association list of
`Val`s, and a device map is a `Val`-keyed association list of records
(the scanner keys maps by whatever value the device reports under
`mac_address`).  Fallible Python paths (a `KeyError`, an exception that
a caller catches, a request that may time out) are embedded with
`Option` or with explicit outcome inductives.
-/

namespace Loudframe

/-- A JSON value as produced by the devices' HTTP API. -/
inductive Val where
  | vStr : String → Val
  | vBool : Bool → Val
  | vNat : Nat → Val
deriving DecidableEq

/-- Python dict lookup `m[key]` / `m.get(key)`: first binding of `key`. -/
def alookup {κ α : Type} [DecidableEq κ] : List (κ × α) → κ → Option α
  | [], _ => none
  | (k, v) :: rest, key => if k = key then some v else alookup rest key

/-- Python dict assignment `m[key] = v`: replace the value of an existing
key in place (keeping its position), append a fresh key at the end. -/
def aset {κ α : Type} [DecidableEq κ] : List (κ × α) → κ → α → List (κ × α)
  | [], key, v => [(key, v)]
  | (k, w) :: rest, key, v =>
      if k = key then (k, v) :: rest else (k, w) :: aset rest key v

/-- The keys of a dict, in insertion order. -/
def keysOf {κ α : Type} (m : List (κ × α)) : List κ := m.map Prod.fst

/-- Python `m.update(d)`: assign every binding of `d` into `m`, in order. -/
def recUpdate {κ α : Type} [DecidableEq κ] (m d : List (κ × α)) : List (κ × α) :=
  d.foldl (fun acc p => aset acc p.1 p.2) m

/-- A device record: a JSON object keyed by field name. -/
abbrev Rec := List (String × Val)

/-- A device map: records keyed by the reported `mac_address` value. -/
abbrev DevMap := List (Val × Rec)

/-- The scanner's operation mode (`--action create|add|update`). -/
inductive Mode where
  | create
  | add
  | update
deriving DecidableEq

/-- `for mac in merged: merged[mac]['online'] = False` — force every
record of the map offline, preserving everything else. -/
def markAllOffline (m : DevMap) : DevMap :=
  m.map (fun p => (p.1, aset p.2 "online" (Val.vBool false)))

/-- One iteration of the merge loops of `DeviceScanner.merge_device_maps`:
`if mac in merged: merged[mac].update(device) else: merged[mac] = device`,
where the `else` branch only runs when `insertNew` (add mode). -/
def mergeStep (insertNew : Bool) (acc : DevMap) (kv : Val × Rec) : DevMap :=
  match alookup acc kv.1 with
  | some r => aset acc kv.1 (recUpdate r kv.2)
  | none => if insertNew then aset acc kv.1 kv.2 else acc

/-- `DeviceScanner.merge_device_maps(existing, new)` for each of the three
modes: `create` returns `new`; `add` and `update` copy `existing`, mark
every record offline, then fold the discovery loop over `new`, inserting
unknown MACs only in `add` mode. -/
def merge_device_maps (mode : Mode) (existing new : DevMap) : DevMap :=
  match mode with
  | Mode.create => new
  | Mode.add => new.foldl (mergeStep true) (markAllOffline existing)
  | Mode.update => new.foldl (mergeStep false) (markAllOffline existing)

/-- The network-level outcome of one `GET /api/status` probe, as
distinguished by `DeviceScanner.scan_device`'s handlers: a 200 response
with a parsed JSON body, a non-200 response, `asyncio.TimeoutError`,
`aiohttp.ClientError`, or any other exception. -/
inductive ProbeOutcome where
  | ok : Rec → ProbeOutcome
  | nonOk : Nat → ProbeOutcome
  | timeout : ProbeOutcome
  | clientError : ProbeOutcome
  | otherError : ProbeOutcome
deriving DecidableEq

/-- The `device_info` dict built by `scan_device` from a 200-status JSON
body `data`, with `datetime.now().isoformat()` passed in as `now`. -/
def device_info (ip : String) (data : Rec) (now : String) : Rec :=
  [("ip_address", Val.vStr ip),
   ("mac_address", (alookup data "mac_address").getD (Val.vStr "UNKNOWN")),
   ("id", (alookup data "id").getD (Val.vStr "UNKNOWN")),
   ("wifi_connected", (alookup data "wifi_connected").getD (Val.vBool false)),
   ("firmware_version", (alookup data "firmware_version").getD (Val.vStr "UNKNOWN")),
   ("uptime_seconds", (alookup data "uptime_seconds").getD (Val.vNat 0)),
   ("last_seen", Val.vStr now),
   ("online", Val.vBool true)]

/-- `DeviceScanner.scan_device`: returns the optional device record and the
increment applied to `scan_stats['errors']` (only the catch-all handler
counts; timeouts, client errors and non-200 responses fall through to
`return None` without touching the tally). -/
def scan_device (now ip : String) (o : ProbeOutcome) : Option Rec × Nat :=
  match o with
  | ProbeOutcome.ok data => (some (device_info ip data now), 0)
  | ProbeOutcome.nonOk _ => (none, 0)
  | ProbeOutcome.timeout => (none, 0)
  | ProbeOutcome.clientError => (none, 0)
  | ProbeOutcome.otherError => (none, 1)

/-- `IDManager.scan_single_device`: same probe classification as
`scan_device` but with no error tally at all. -/
def scan_single_device (now ip : String) (o : ProbeOutcome) : Option Rec :=
  match o with
  | ProbeOutcome.ok data => some (device_info ip data now)
  | _ => none

/-- Modelled from the spec: the address enumeration
`[str(ip) for ip in ipaddress.ip_network(range).hosts()]` used by
`DeviceScanner.scan_network` and `IDManager.provision_single_device`
lives in the Python standard library, not in this repository.  Spec
section 4.1: the enumerator yields every address of the CIDR block
excluding the network and broadcast addresses.  `blockSize` is the
number of addresses in a block of the given prefix length. -/
def blockSize (prefixLen : Nat) : Nat := 2 ^ (32 - prefixLen)

/-- Modelled from the spec: all addresses of the CIDR block whose network
address is `net`, as 32-bit integers in order. -/
def allAddresses (net prefixLen : Nat) : List Nat :=
  (List.range (blockSize prefixLen)).map (fun i => net + i)

/-- Modelled from the spec: the host addresses of the block — every
address except the network address `net` and the broadcast address
`net + blockSize - 1`. -/
def hosts (net prefixLen : Nat) : List Nat :=
  (allAddresses net prefixLen).filter
    (fun a => a ≠ net ∧ a ≠ net + (blockSize prefixLen - 1))

/-- The network-level outcome of one `BatchController.send_request` HTTP
request: a response whose body parsed as JSON, a response whose
`response.json()` raised (`badBody`), `asyncio.TimeoutError`, or any
other exception. -/
inductive ReqOutcome where
  | responds : Nat → Rec → ReqOutcome
  | badBody : Nat → String → ReqOutcome
  | timeout : ReqOutcome
  | otherExn : String → ReqOutcome
deriving DecidableEq

/-- The per-device result dict built by `BatchController.send_request`. -/
structure OperationResult where
  device_id : Val
  ip_address : Val
  mac_address : Val
  success : Bool
  response : Option Rec
  error : Option String
deriving DecidableEq

/-- `BatchController.send_request`: reads `device['ip_address']` (a
`KeyError` there propagates out of the coroutine, hence `Option`),
builds the result dict with `success=False`, then fills it in from the
request outcome; every handler returns the dict rather than raising. -/
def send_request (device : Rec) (o : ReqOutcome) : Option OperationResult :=
  match alookup device "ip_address" with
  | none => none
  | some ipv =>
      let base : OperationResult :=
        { device_id := (alookup device "id").getD (Val.vStr "UNKNOWN"),
          ip_address := ipv,
          mac_address := (alookup device "mac_address").getD (Val.vStr "UNKNOWN"),
          success := false,
          response := none,
          error := none }
      some (match o with
        | ReqOutcome.responds status body =>
            { base with response := some body, success := status == 200 }
        | ReqOutcome.badBody _ msg => { base with error := some msg }
        | ReqOutcome.timeout => { base with error := some "Timeout" }
        | ReqOutcome.otherExn msg => { base with error := some msg })

/-- `BatchController.batch_request`: one `send_request` task per device,
gathered in task order; `env i` is the network outcome seen by the task
of the `i`-th device.  An exception escaping a task (only possible via
the `KeyError` on `ip_address`) propagates out of `asyncio.gather`,
hence `Option`. -/
def batch_request : List Rec → (Nat → ReqOutcome) → Option (List OperationResult)
  | [], _ => some []
  | d :: rest, env => do
      let r ← send_request d (env 0)
      let rs ← batch_request rest (fun i => env (i + 1))
      pure (r :: rs)

/-- The outcome of the single `POST /api/id` request that
`IDManager.provision_single_device` issues when exactly one device was
found: a response with some status, a timeout, or any other exception. -/
inductive IdChangeOutcome where
  | responded : Nat → IdChangeOutcome
  | timeout : IdChangeOutcome
  | exn : String → IdChangeOutcome
deriving DecidableEq

/-- Which terminal diagnostic `provision_single_device` logs. -/
inductive ProvisionDiag where
  | noneFound : ProvisionDiag
  | multipleFound : List Rec → ProvisionDiag
  | singleFound : Rec → ProvisionDiag
deriving DecidableEq

/-- The observable outcome of `provision_single_device`: its boolean
return value, the diagnostic branch taken, and how many `POST /api/id`
requests were issued. -/
structure ProvisionResult where
  success : Bool
  diag : ProvisionDiag
  idRequests : Nat
deriving DecidableEq

/-- `IDManager.provision_single_device`: probe every address (the probes
are given as address/outcome pairs in scan order; the batched gather
collects found devices in that same order), then branch on how many
devices were found.  Zero: return False with the none-found diagnostic.
Exactly one: issue one `POST /api/id` and return True iff it came back
with HTTP 200.  Two or more: return False listing every found device. -/
def provision_single_device (probes : List (String × ProbeOutcome))
    (now : String) (idOutcome : IdChangeOutcome) : ProvisionResult :=
  let found := probes.filterMap (fun p => scan_single_device now p.1 p.2)
  match found with
  | [] => ⟨false, ProvisionDiag.noneFound, 0⟩
  | [d] =>
      ⟨(match idOutcome with
        | IdChangeOutcome.responded s => s == 200
        | _ => false),
       ProvisionDiag.singleFound d, 1⟩
  | d1 :: d2 :: rest => ⟨false, ProvisionDiag.multipleFound (d1 :: d2 :: rest), 0⟩

/-- The dict comprehension of `DeviceScanner.load_existing_map`:
build a MAC-keyed dict from a device list; a record with no
`mac_address` key raises a `KeyError` (hence `none`), which the
caller's catch-all turns into an empty map. -/
def keyByMac (devs : List Rec) : Option DevMap :=
  devs.foldlM
    (fun acc d => (alookup d "mac_address").map (fun v => aset acc v d)) []

/-- What `load_existing_map` finds on disk: no file at all, a file that
cannot be read or parsed as JSON, or a parsed JSON document — a dict
containing a `devices` list, a bare list, or anything else (returned
as-is). -/
inductive LoadedJson where
  | withDevices : List Rec → LoadedJson
  | asList : List Rec → LoadedJson
  | other : DevMap → LoadedJson

/-- The state of the registry file as seen by `load_existing_map`. -/
inductive LoadSource where
  | absent : LoadSource
  | readError : LoadSource
  | parsed : LoadedJson → LoadSource

/-- `DeviceScanner.load_existing_map`: a missing file yields an empty
map; any exception inside the `try` (unreadable file, invalid JSON, or
a `KeyError` in the dict comprehension) is caught and yields an empty
map; otherwise the parsed document is converted to a MAC-keyed dict. -/
def load_existing_map : LoadSource → DevMap
  | LoadSource.absent => []
  | LoadSource.readError => []
  | LoadSource.parsed (LoadedJson.withDevices devs) =>
      match keyByMac devs with
      | some m => m
      | none => []
  | LoadSource.parsed (LoadedJson.asList devs) =>
      match keyByMac devs with
      | some m => m
      | none => []
  | LoadSource.parsed (LoadedJson.other m) => m

/-! ### Dict lemmas -/

theorem alookup_aset_self {κ α : Type} [DecidableEq κ]
    (m : List (κ × α)) (k : κ) (v : α) :
    alookup (aset m k v) k = some v := by
  induction m with
  | nil => simp [aset, alookup]
  | cons p rest ih =>
      obtain ⟨q, w⟩ := p
      by_cases h : q = k
      · simp [aset, alookup, h]
      · simp [aset, alookup, h, ih]

theorem alookup_aset_ne {κ α : Type} [DecidableEq κ]
    (m : List (κ × α)) (k k' : κ) (v : α) (h : k' ≠ k) :
    alookup (aset m k' v) k = alookup m k := by
  induction m with
  | nil => simp [aset, alookup, h]
  | cons p rest ih =>
      obtain ⟨q, w⟩ := p
      by_cases hq : q = k'
      · simp [aset, alookup, hq, h]
      · by_cases hk : q = k
        · simp [aset, alookup, hq, hk, Ne.symm h]
        · simp [aset, alookup, hq, hk, ih]

theorem keysOf_aset_of_isSome {κ α : Type} [DecidableEq κ]
    (m : List (κ × α)) (k : κ) (v : α) (h : (alookup m k).isSome) :
    keysOf (aset m k v) = keysOf m := by
  induction m with
  | nil => simp [alookup] at h
  | cons p rest ih =>
      obtain ⟨q, w⟩ := p
      by_cases hq : q = k
      · simp [aset, keysOf, hq]
      · have h' : (alookup rest k).isSome := by simpa [alookup, hq] using h
        have ih' := ih h'
        simp only [aset, if_neg hq]
        simp only [keysOf, List.map_cons] at ih' ⊢
        rw [ih']

theorem alookup_eq_none_iff {κ α : Type} [DecidableEq κ]
    (m : List (κ × α)) (k : κ) :
    alookup m k = none ↔ k ∉ keysOf m := by
  induction m with
  | nil => simp [alookup, keysOf]
  | cons p rest ih =>
      obtain ⟨q, w⟩ := p
      by_cases hq : q = k
      · simp [alookup, keysOf, hq]
      · simp [alookup, keysOf, hq, ih, Ne.symm hq]

theorem alookup_mapValues {κ α β : Type} [DecidableEq κ]
    (f : α → β) (m : List (κ × α)) (k : κ) :
    alookup (m.map (fun p => (p.1, f p.2))) k = (alookup m k).map f := by
  induction m with
  | nil => simp [alookup]
  | cons p rest ih =>
      obtain ⟨q, w⟩ := p
      by_cases hq : q = k
      · simp [alookup, hq]
      · simp [alookup, hq, ih]

theorem keysOf_mapValues {κ α β : Type}
    (f : α → β) (m : List (κ × α)) :
    keysOf (m.map (fun p => (p.1, f p.2))) = keysOf m := by
  induction m with
  | nil => rfl
  | cons p rest ih => simp [keysOf] at ih ⊢

theorem alookup_recUpdate_of_forall_ne {κ α : Type} [DecidableEq κ]
    (d : List (κ × α)) (m : List (κ × α)) (k : κ)
    (h : ∀ p ∈ d, p.1 ≠ k) :
    alookup (recUpdate m d) k = alookup m k := by
  induction d generalizing m with
  | nil => rfl
  | cons p rest ih =>
      have h1 : p.1 ≠ k := h p (List.mem_cons_self p rest)
      have hrec : recUpdate m (p :: rest) = recUpdate (aset m p.1 p.2) rest := rfl
      rw [hrec, ih (aset m p.1 p.2) (fun q hq => h q (List.mem_cons_of_mem p hq)),
        alookup_aset_ne m k p.1 p.2 h1]

theorem alookup_recUpdate_of_nodup {κ α : Type} [DecidableEq κ]
    (d : List (κ × α)) (m : List (κ × α)) (k : κ) (v : α)
    (hnd : (keysOf d).Nodup) (hd : alookup d k = some v) :
    alookup (recUpdate m d) k = some v := by
  induction d generalizing m with
  | nil => simp [alookup] at hd
  | cons p rest ih =>
      obtain ⟨q, w⟩ := p
      have hnd' : q ∉ keysOf rest ∧ (keysOf rest).Nodup := by
        simpa [keysOf] using hnd
      by_cases hq : q = k
      · have hv : w = v := by simpa [alookup, hq] using hd
        have hrest : ∀ p ∈ rest, p.1 ≠ k := by
          intro p hp hpk
          exact hnd'.1 (by simpa [keysOf, hq ▸ hpk] using List.mem_map_of_mem Prod.fst hp)
        have hrec : recUpdate m ((q, w) :: rest) = recUpdate (aset m q w) rest := rfl
        rw [hrec, alookup_recUpdate_of_forall_ne rest (aset m q w) k hrest, hq, hv,
          alookup_aset_self]
      · have hd' : alookup rest k = some v := by simpa [alookup, hq] using hd
        have hrec : recUpdate m ((q, w) :: rest) = recUpdate (aset m q w) rest := rfl
        rw [hrec]
        exact ih (aset m q w) hnd'.2 hd'

/-! ### Merge-fold lemmas -/

theorem alookup_markAllOffline (m : DevMap) (mac : Val) :
    alookup (markAllOffline m) mac
      = (alookup m mac).map (fun r => aset r "online" (Val.vBool false)) :=
  alookup_mapValues (fun r => aset r "online" (Val.vBool false)) m mac

theorem keysOf_markAllOffline (m : DevMap) :
    keysOf (markAllOffline m) = keysOf m :=
  keysOf_mapValues (fun r => aset r "online" (Val.vBool false)) m

theorem alookup_mergeStep_ne (b : Bool) (acc : DevMap) (p : Val × Rec)
    (mac : Val) (h : p.1 ≠ mac) :
    alookup (mergeStep b acc p) mac = alookup acc mac := by
  unfold mergeStep
  cases halo : alookup acc p.1 with
  | some r => exact alookup_aset_ne acc mac p.1 (recUpdate r p.2) h
  | none =>
      cases b
      · simp
      · simp [alookup_aset_ne acc mac p.1 p.2 h]

theorem alookup_foldl_mergeStep_of_forall_ne (b : Bool) (l : List (Val × Rec))
    (acc : DevMap) (mac : Val) (h : ∀ p ∈ l, p.1 ≠ mac) :
    alookup (l.foldl (mergeStep b) acc) mac = alookup acc mac := by
  induction l generalizing acc with
  | nil => rfl
  | cons p rest ih =>
      rw [List.foldl_cons,
        ih (mergeStep b acc p) (fun q hq => h q (List.mem_cons_of_mem p hq)),
        alookup_mergeStep_ne b acc p mac (h p (List.mem_cons_self p rest))]

theorem keysOf_foldl_mergeStep_false (l : List (Val × Rec)) (acc : DevMap) :
    keysOf (l.foldl (mergeStep false) acc) = keysOf acc := by
  induction l generalizing acc with
  | nil => rfl
  | cons p rest ih =>
      have hstep : keysOf (mergeStep false acc p) = keysOf acc := by
        unfold mergeStep
        cases halo : alookup acc p.1 with
        | some r =>
            exact keysOf_aset_of_isSome acc p.1 (recUpdate r p.2) (by simp [halo])
        | none => simp
      rw [List.foldl_cons, ih (mergeStep false acc p), hstep]

theorem alookup_foldl_mergeStep_update (b : Bool) (l : List (Val × Rec))
    (acc : DevMap) (mac : Val) (r0 d : Rec) (hnd : (keysOf l).Nodup)
    (hacc : alookup acc mac = some r0) (hl : alookup l mac = some d) :
    alookup (l.foldl (mergeStep b) acc) mac = some (recUpdate r0 d) := by
  induction l generalizing acc r0 with
  | nil => simp [alookup] at hl
  | cons p rest ih =>
      obtain ⟨q, e⟩ := p
      have hnd' : q ∉ keysOf rest ∧ (keysOf rest).Nodup := by
        simpa [keysOf] using hnd
      by_cases hq : q = mac
      · have he : e = d := by simpa [alookup, hq] using hl
        have hrest : ∀ p ∈ rest, p.1 ≠ mac := by
          intro p hp hpk
          exact hnd'.1 (by simpa [keysOf, hq ▸ hpk] using List.mem_map_of_mem Prod.fst hp)
        have hstep : mergeStep b acc (q, e) = aset acc q (recUpdate r0 e) := by
          unfold mergeStep
          simp [hq, hacc]
        rw [List.foldl_cons, hstep,
          alookup_foldl_mergeStep_of_forall_ne b rest _ mac hrest, he, hq,
          alookup_aset_self]
      · have hl' : alookup rest mac = some d := by simpa [alookup, hq] using hl
        have hacc' : alookup (mergeStep b acc (q, e)) mac = some r0 := by
          rw [alookup_mergeStep_ne b acc (q, e) mac hq]
          exact hacc
        rw [List.foldl_cons]
        exact ih (mergeStep b acc (q, e)) r0 hnd'.2 hacc' hl'

theorem alookup_foldl_mergeStep_insert (l : List (Val × Rec))
    (acc : DevMap) (mac : Val) (d : Rec) (hnd : (keysOf l).Nodup)
    (hacc : alookup acc mac = none) (hl : alookup l mac = some d) :
    alookup (l.foldl (mergeStep true) acc) mac = some d := by
  induction l generalizing acc with
  | nil => simp [alookup] at hl
  | cons p rest ih =>
      obtain ⟨q, e⟩ := p
      have hnd' : q ∉ keysOf rest ∧ (keysOf rest).Nodup := by
        simpa [keysOf] using hnd
      by_cases hq : q = mac
      · have he : e = d := by simpa [alookup, hq] using hl
        have hrest : ∀ p ∈ rest, p.1 ≠ mac := by
          intro p hp hpk
          exact hnd'.1 (by simpa [keysOf, hq ▸ hpk] using List.mem_map_of_mem Prod.fst hp)
        have hstep : mergeStep true acc (q, e) = aset acc q e := by
          unfold mergeStep
          simp [hq, hacc]
        rw [List.foldl_cons, hstep,
          alookup_foldl_mergeStep_of_forall_ne true rest _ mac hrest, he, hq,
          alookup_aset_self]
      · have hl' : alookup rest mac = some d := by simpa [alookup, hq] using hl
        have hacc' : alookup (mergeStep true acc (q, e)) mac = none := by
          rw [alookup_mergeStep_ne true acc (q, e) mac hq]
          exact hacc
        rw [List.foldl_cons]
        exact ih (mergeStep true acc (q, e)) hnd'.2 hacc' hl'

/-! ### Claims about the merge policies -/

/-- C1, counterexample: the claim quantifies over all three policies, but
under `create` the merge returns exactly the discovered map, so an
existing registry MAC absent from discovery is dropped: merging
existing = (one record for MAC "AA:BB:CC:DD:EE:01", online) with an
empty discovered set yields a map in which that MAC is no longer
present at all, instead of a record with `online=false`. -/
theorem C1_create_drops_absent_existing :
    alookup (merge_device_maps Mode.create
        [(Val.vStr "AA:BB:CC:DD:EE:01", [("online", Val.vBool true)])] [])
      (Val.vStr "AA:BB:CC:DD:EE:01") = none := rfl

/-- C1, amended: for the `add` and `update` merge policies (but not
`create`, which discards the existing map), every existing-registry MAC
key absent from the discovered set keeps its device record with all
fields unchanged except that `online` is forced to `false`. -/
theorem C1_offline_frame_add_update (mode : Mode) (existing new : DevMap)
    (mac : Val) (hm : mode = Mode.add ∨ mode = Mode.update)
    (hnew : ∀ p ∈ new, p.1 ≠ mac) :
    alookup (merge_device_maps mode existing new) mac
      = (alookup existing mac).map (fun r => aset r "online" (Val.vBool false)) := by
  rcases hm with h | h <;> subst h
  · show alookup (new.foldl (mergeStep true) (markAllOffline existing)) mac = _
    rw [alookup_foldl_mergeStep_of_forall_ne true new _ mac hnew,
      alookup_markAllOffline]
  · show alookup (new.foldl (mergeStep false) (markAllOffline existing)) mac = _
    rw [alookup_foldl_mergeStep_of_forall_ne false new _ mac hnew,
      alookup_markAllOffline]

/-- C1, witness: the amended theorem applied to a concrete one-record
registry and a discovery set not containing its MAC. -/
theorem C1_offline_frame_add_update_witness :
    alookup (merge_device_maps Mode.add
        [(Val.vStr "M1", [("id", Val.vStr "dev"), ("online", Val.vBool true)])]
        [(Val.vStr "M2", [("online", Val.vBool true)])])
      (Val.vStr "M1")
      = (alookup [(Val.vStr "M1", [("id", Val.vStr "dev"), ("online", Val.vBool true)])]
          (Val.vStr "M1")).map (fun r => aset r "online" (Val.vBool false)) :=
  C1_offline_frame_add_update Mode.add
    [(Val.vStr "M1", [("id", Val.vStr "dev"), ("online", Val.vBool true)])]
    [(Val.vStr "M2", [("online", Val.vBool true)])]
    (Val.vStr "M1") (Or.inl rfl) (by decide)

/-- C2: merging under `update` returns a map whose MAC key sequence is
exactly that of the existing map; a MAC absent from the existing map is
never present in the result (discovered strangers are dropped, never
inserted); and a discovered record whose MAC is present overwrites the
existing record's fields via the field-level dict update (applied to
the record already marked offline). -/
theorem C2_update_freezes_key_set (existing new : DevMap)
    (hnd : (keysOf new).Nodup) :
    keysOf (merge_device_maps Mode.update existing new) = keysOf existing ∧
    (∀ mac, alookup existing mac = none →
      alookup (merge_device_maps Mode.update existing new) mac = none) ∧
    (∀ mac r d, alookup existing mac = some r → alookup new mac = some d →
      alookup (merge_device_maps Mode.update existing new) mac
        = some (recUpdate (aset r "online" (Val.vBool false)) d)) := by
  have hkeys : keysOf (merge_device_maps Mode.update existing new)
      = keysOf existing := by
    show keysOf (new.foldl (mergeStep false) (markAllOffline existing)) = _
    rw [keysOf_foldl_mergeStep_false, keysOf_markAllOffline]
  refine ⟨hkeys, ?_, ?_⟩
  · intro mac hmac
    rw [alookup_eq_none_iff] at hmac ⊢
    rw [hkeys]
    exact hmac
  · intro mac r d hex hnew
    show alookup (new.foldl (mergeStep false) (markAllOffline existing)) mac = _
    exact alookup_foldl_mergeStep_update false new (markAllOffline existing) mac
      (aset r "online" (Val.vBool false)) d hnd
      (by rw [alookup_markAllOffline, hex]; rfl) hnew

/-- C2, witness: the spec's example — existing contains MAC "A" only,
discovery reports "A" (with fresh fields) and a stranger "B"; the
result updates "A" and drops "B". -/
theorem C2_update_freezes_key_set_witness :
    alookup (merge_device_maps Mode.update
        [(Val.vStr "A", [("id", Val.vStr "old"), ("online", Val.vBool true)])]
        [(Val.vStr "A", [("id", Val.vStr "newA"), ("online", Val.vBool true)]),
         (Val.vStr "B", [("id", Val.vStr "newB"), ("online", Val.vBool true)])])
      (Val.vStr "A")
      = some (recUpdate
          (aset [("id", Val.vStr "old"), ("online", Val.vBool true)]
            "online" (Val.vBool false))
          [("id", Val.vStr "newA"), ("online", Val.vBool true)]) ∧
    alookup (merge_device_maps Mode.update
        [(Val.vStr "A", [("id", Val.vStr "old"), ("online", Val.vBool true)])]
        [(Val.vStr "A", [("id", Val.vStr "newA"), ("online", Val.vBool true)]),
         (Val.vStr "B", [("id", Val.vStr "newB"), ("online", Val.vBool true)])])
      (Val.vStr "B") = none :=
  ⟨(C2_update_freezes_key_set
      [(Val.vStr "A", [("id", Val.vStr "old"), ("online", Val.vBool true)])]
      [(Val.vStr "A", [("id", Val.vStr "newA"), ("online", Val.vBool true)]),
       (Val.vStr "B", [("id", Val.vStr "newB"), ("online", Val.vBool true)])]
      (by decide)).2.2 (Val.vStr "A")
      [("id", Val.vStr "old"), ("online", Val.vBool true)]
      [("id", Val.vStr "newA"), ("online", Val.vBool true)]
      (by decide) (by decide),
   (C2_update_freezes_key_set
      [(Val.vStr "A", [("id", Val.vStr "old"), ("online", Val.vBool true)])]
      [(Val.vStr "A", [("id", Val.vStr "newA"), ("online", Val.vBool true)]),
       (Val.vStr "B", [("id", Val.vStr "newB"), ("online", Val.vBool true)])]
      (by decide)).2.1 (Val.vStr "B") (by decide)⟩

/-- C3: merging under `add` first marks every existing record offline
(so with an empty discovery a one-record map keeps its record with only
`online` flipped to false); a discovered record whose MAC is present
updates the existing record field by field (fields not reported are
retained), and since the dict update wins on the fields it does report,
a discovered record carrying `online=true` leaves the merged record
with `online=true`; a discovered record whose MAC is absent is inserted
as a new entry. -/
theorem C3_add_characterization (existing new : DevMap)
    (hnd : (keysOf new).Nodup) :
    (∀ mac, (∀ p ∈ new, p.1 ≠ mac) →
      alookup (merge_device_maps Mode.add existing new) mac
        = (alookup existing mac).map (fun r => aset r "online" (Val.vBool false))) ∧
    (∀ mac r d, alookup existing mac = some r → alookup new mac = some d →
      alookup (merge_device_maps Mode.add existing new) mac
        = some (recUpdate (aset r "online" (Val.vBool false)) d)) ∧
    (∀ mac d, alookup existing mac = none → alookup new mac = some d →
      alookup (merge_device_maps Mode.add existing new) mac = some d) ∧
    (∀ (d : Rec) (v : Val), (keysOf d).Nodup → alookup d "online" = some v →
      ∀ r : Rec, alookup (recUpdate (aset r "online" (Val.vBool false)) d) "online"
        = some v) ∧
    (∀ (mac : Val) (r : Rec), merge_device_maps Mode.add [(mac, r)] []
        = [(mac, aset r "online" (Val.vBool false))]) := by
  refine ⟨?_, ?_, ?_, ?_, ?_⟩
  · intro mac hnew
    show alookup (new.foldl (mergeStep true) (markAllOffline existing)) mac = _
    rw [alookup_foldl_mergeStep_of_forall_ne true new _ mac hnew,
      alookup_markAllOffline]
  · intro mac r d hex hnew
    show alookup (new.foldl (mergeStep true) (markAllOffline existing)) mac = _
    exact alookup_foldl_mergeStep_update true new (markAllOffline existing) mac
      (aset r "online" (Val.vBool false)) d hnd
      (by rw [alookup_markAllOffline, hex]; rfl) hnew
  · intro mac d hex hnew
    show alookup (new.foldl (mergeStep true) (markAllOffline existing)) mac = _
    exact alookup_foldl_mergeStep_insert new (markAllOffline existing) mac d hnd
      (by rw [alookup_markAllOffline, hex]; rfl) hnew
  · intro d v hndd hd r
    exact alookup_recUpdate_of_nodup d (aset r "online" (Val.vBool false))
      "online" v hndd hd
  · intro mac r
    rfl

/-- C3, witness: the spec's example — existing contains one online
record and discovery is empty, yielding the same record forced offline;
and a fresh MAC discovered over an empty map is inserted verbatim. -/
theorem C3_add_characterization_witness :
    merge_device_maps Mode.add [(Val.vStr "A", [("online", Val.vBool true)])] []
      = [(Val.vStr "A", aset [("online", Val.vBool true)] "online" (Val.vBool false))] ∧
    alookup (merge_device_maps Mode.add []
        [(Val.vStr "B", [("online", Val.vBool true)])])
      (Val.vStr "B") = some [("online", Val.vBool true)] :=
  ⟨(C3_add_characterization [] [] (by decide)).2.2.2.2
      (Val.vStr "A") [("online", Val.vBool true)],
   (C3_add_characterization [] [(Val.vStr "B", [("online", Val.vBool true)])]
      (by decide)).2.2.1 (Val.vStr "B") [("online", Val.vBool true)]
      (by decide) (by decide)⟩

/-- C4: merging under `create` returns exactly the discovered map and
discards the existing map entirely, whatever both contain. -/
theorem C4_create_returns_discovered (existing new : DevMap) :
    merge_device_maps Mode.create existing new = new := rfl

/-! ### Claims about probing and batch dispatch -/

/-- `send_request` always yields a result dict when the device carries an
`ip_address`, and that result is marked successful exactly when the
request came back with a JSON-parseable body and HTTP status 200. -/
theorem send_request_spec (d : Rec) (o : ReqOutcome) (ipv : Val)
    (hip : alookup d "ip_address" = some ipv) :
    ∃ r, send_request d o = some r ∧
      (r.success = true ↔ ∃ body, o = ReqOutcome.responds 200 body) := by
  cases o with
  | responds status body =>
      refine ⟨_, by unfold send_request; rw [hip], ?_⟩
      show (status == 200) = true ↔ _
      rw [beq_iff_eq]
      constructor
      · intro h
        subst h
        exact ⟨body, rfl⟩
      · rintro ⟨b, hb⟩
        injection hb with h1 h2
  | badBody status msg =>
      refine ⟨_, by unfold send_request; rw [hip], ?_⟩
      show false = true ↔ _
      simp
  | timeout =>
      refine ⟨_, by unfold send_request; rw [hip], ?_⟩
      show false = true ↔ _
      simp
  | otherExn msg =>
      refine ⟨_, by unfold send_request; rw [hip], ?_⟩
      show false = true ↔ _
      simp

/-- `batch_request` over devices that all carry an `ip_address` returns
one result per device, the `i`-th result being exactly what
`send_request` computed for the `i`-th device from that device's own
network outcome. -/
theorem batch_request_spec (devices : List Rec) (env : Nat → ReqOutcome)
    (hip : ∀ d ∈ devices, (alookup d "ip_address").isSome) :
    ∃ results, batch_request devices env = some results ∧
      results.length = devices.length ∧
      ∀ i, results[i]? = (devices[i]?).bind (fun d => send_request d (env i)) := by
  induction devices generalizing env with
  | nil =>
      refine ⟨[], rfl, rfl, ?_⟩
      intro i
      simp
  | cons d rest ih =>
      obtain ⟨ipv, hipv⟩ :=
        Option.isSome_iff_exists.mp (hip d (List.mem_cons_self d rest))
      obtain ⟨r, hr, _⟩ := send_request_spec d (env 0) ipv hipv
      obtain ⟨rs, hrs, hlen, hidx⟩ :=
        ih (fun i => env (i + 1)) (fun q hq => hip q (List.mem_cons_of_mem d hq))
      have hbind : batch_request (d :: rest) env
          = (send_request d (env 0)).bind
              (fun r0 => (batch_request rest (fun i => env (i + 1))).bind
                (fun rs0 => some (r0 :: rs0))) := rfl
      refine ⟨r :: rs, ?_, by simp [hlen], ?_⟩
      · rw [hbind, hr, hrs]
        rfl
      · intro i
        cases i with
        | zero => simp [hr]
        | succ n => simpa using hidx n

/-- C5: dispatch returns exactly one `OperationResult` per input device,
each computed from that device's own outcome alone — so one device's
timeout, malformed response, or connection refusal is recorded only in
that device's result and cannot alter any other device's result — and a
result is marked successful exactly when its own request returned
HTTP 200 with a JSON body. -/
theorem C5_dispatch_per_device_results (devices : List Rec)
    (env : Nat → ReqOutcome)
    (hip : ∀ d ∈ devices, (alookup d "ip_address").isSome) :
    ∃ results, batch_request devices env = some results ∧
      results.length = devices.length ∧
      (∀ i, results[i]? = (devices[i]?).bind (fun d => send_request d (env i))) ∧
      (∀ (d : Rec) (o : ReqOutcome), (alookup d "ip_address").isSome →
        ∃ r, send_request d o = some r ∧
          (r.success = true ↔ ∃ body, o = ReqOutcome.responds 200 body)) := by
  obtain ⟨results, h1, h2, h3⟩ := batch_request_spec devices env hip
  refine ⟨results, h1, h2, h3, ?_⟩
  intro d o hd
  obtain ⟨ipv, hipv⟩ := Option.isSome_iff_exists.mp hd
  exact send_request_spec d o ipv hipv

/-- C5, witness: a batch of 5 devices of which the last 2 time out
yields exactly 5 results, 3 marked success and 2 marked error. -/
theorem C5_dispatch_per_device_results_witness :
    (∃ results,
      batch_request
        [[("ip_address", Val.vStr "10.0.0.1")],
         [("ip_address", Val.vStr "10.0.0.2")],
         [("ip_address", Val.vStr "10.0.0.3")],
         [("ip_address", Val.vStr "10.0.0.4")],
         [("ip_address", Val.vStr "10.0.0.5")]]
        (fun i => if i < 3 then ReqOutcome.responds 200 [] else ReqOutcome.timeout)
        = some results ∧
      results.length
        = [[("ip_address", Val.vStr "10.0.0.1")],
           [("ip_address", Val.vStr "10.0.0.2")],
           [("ip_address", Val.vStr "10.0.0.3")],
           [("ip_address", Val.vStr "10.0.0.4")],
           [("ip_address", Val.vStr "10.0.0.5")]].length ∧
      (∀ i, results[i]?
        = ([[("ip_address", Val.vStr "10.0.0.1")],
            [("ip_address", Val.vStr "10.0.0.2")],
            [("ip_address", Val.vStr "10.0.0.3")],
            [("ip_address", Val.vStr "10.0.0.4")],
            [("ip_address", Val.vStr "10.0.0.5")]][i]?).bind
            (fun d => send_request d
              (if i < 3 then ReqOutcome.responds 200 [] else ReqOutcome.timeout))) ∧
      (∀ (d : Rec) (o : ReqOutcome), (alookup d "ip_address").isSome →
        ∃ r, send_request d o = some r ∧
          (r.success = true ↔ ∃ body, o = ReqOutcome.responds 200 body))) ∧
    (∃ rs,
      batch_request
        [[("ip_address", Val.vStr "10.0.0.1")],
         [("ip_address", Val.vStr "10.0.0.2")],
         [("ip_address", Val.vStr "10.0.0.3")],
         [("ip_address", Val.vStr "10.0.0.4")],
         [("ip_address", Val.vStr "10.0.0.5")]]
        (fun i => if i < 3 then ReqOutcome.responds 200 [] else ReqOutcome.timeout)
        = some rs ∧
      rs.length = 5 ∧
      rs.countP (fun r => r.success) = 3 ∧
      rs.countP (fun r => r.error.isSome) = 2) :=
  ⟨C5_dispatch_per_device_results
      [[("ip_address", Val.vStr "10.0.0.1")],
       [("ip_address", Val.vStr "10.0.0.2")],
       [("ip_address", Val.vStr "10.0.0.3")],
       [("ip_address", Val.vStr "10.0.0.4")],
       [("ip_address", Val.vStr "10.0.0.5")]]
      (fun i => if i < 3 then ReqOutcome.responds 200 [] else ReqOutcome.timeout)
      (by decide),
   ⟨_, rfl, by decide, by decide, by decide⟩⟩

/-- C6: a probe resolves every outcome other than a parsed 200 response
to `none` (no device) — a non-200 response, a timeout, and a transport
(client) failure do so without touching the error tally, while any
other unexpected exception bumps the error tally by one, still yields
`none`, and still returns normally rather than aborting the scan. -/
theorem C6_probe_failures_resolve_to_none (now ip : String) (o : ProbeOutcome) :
    ((∀ data, o ≠ ProbeOutcome.ok data) → (scan_device now ip o).1 = none) ∧
    (scan_device now ip o).2 = (if o = ProbeOutcome.otherError then 1 else 0) := by
  constructor
  · intro h
    cases o with
    | ok data => exact absurd rfl (h data)
    | nonOk s => rfl
    | timeout => rfl
    | clientError => rfl
    | otherError => rfl
  · cases o <;> simp [scan_device]

/-- C6, witness: the theorem applied to a timed-out probe, a 404
response, a refused connection, and an unexpected exception at a
concrete address. -/
theorem C6_probe_failures_resolve_to_none_witness :
    (scan_device "t0" "10.0.0.7" ProbeOutcome.timeout).1 = none ∧
    (scan_device "t0" "10.0.0.7" (ProbeOutcome.nonOk 404)).1 = none ∧
    (scan_device "t0" "10.0.0.7" ProbeOutcome.clientError).1 = none ∧
    (scan_device "t0" "10.0.0.7" ProbeOutcome.timeout).2 = 0 ∧
    (scan_device "t0" "10.0.0.7" ProbeOutcome.otherError).1 = none ∧
    (scan_device "t0" "10.0.0.7" ProbeOutcome.otherError).2 = 1 :=
  ⟨(C6_probe_failures_resolve_to_none "t0" "10.0.0.7" ProbeOutcome.timeout).1
      (fun data h => ProbeOutcome.noConfusion h),
   (C6_probe_failures_resolve_to_none "t0" "10.0.0.7" (ProbeOutcome.nonOk 404)).1
      (fun data h => ProbeOutcome.noConfusion h),
   (C6_probe_failures_resolve_to_none "t0" "10.0.0.7" ProbeOutcome.clientError).1
      (fun data h => ProbeOutcome.noConfusion h),
   ((C6_probe_failures_resolve_to_none "t0" "10.0.0.7" ProbeOutcome.timeout).2).trans
      (by decide),
   (C6_probe_failures_resolve_to_none "t0" "10.0.0.7" ProbeOutcome.otherError).1
      (fun data h => ProbeOutcome.noConfusion h),
   ((C6_probe_failures_resolve_to_none "t0" "10.0.0.7" ProbeOutcome.otherError).2).trans
      (by decide)⟩

/-- C10: a request whose response body fails JSON parsing is recorded as
a failure — `success=false`, with the parse error message in the
`error` field and no response — whatever the HTTP status was,
in particular for status 200. -/
theorem C10_parse_failure_is_failure (device : Rec) (ipv : Val)
    (hip : alookup device "ip_address" = some ipv) (status : Nat) (msg : String) :
    ∃ r, send_request device (ReqOutcome.badBody status msg) = some r ∧
      r.success = false ∧ r.error = some msg ∧ r.response = none := by
  refine ⟨_, by unfold send_request; rw [hip], rfl, rfl, rfl⟩

/-- C10, witness: a device at a concrete address whose 200 response body
fails to parse. -/
theorem C10_parse_failure_is_failure_witness :
    ∃ r, send_request [("ip_address", Val.vStr "10.0.0.3")]
        (ReqOutcome.badBody 200 "unexpected mimetype") = some r ∧
      r.success = false ∧ r.error = some "unexpected mimetype" ∧ r.response = none :=
  C10_parse_failure_is_failure [("ip_address", Val.vStr "10.0.0.3")]
    (Val.vStr "10.0.0.3") (by decide) 200 "unexpected mimetype"

/-! ### Claims about address enumeration, provisioning and loading -/

/-- `(List.range k).filter (· ≠ 0)` drops exactly the one element `0`. -/
theorem length_filter_range_ne_zero (k : Nat) :
    ((List.range k).filter (fun i => decide (i ≠ 0))).length = k - 1 := by
  induction k with
  | zero => rfl
  | succ k ih =>
      rw [List.range_succ, List.filter_append, List.length_append, ih]
      by_cases hk : k = 0
      · subst hk
        rfl
      · simp [hk]
        omega

/-- Dropping `0` and the last element from `List.range (m + 2)` leaves
exactly `m` elements. -/
theorem length_filter_range_interior (m : Nat) :
    ((List.range (m + 2)).filter
      (fun i => decide (i ≠ 0 ∧ i ≠ m + 1))).length = m := by
  rw [List.range_succ, List.filter_append, List.length_append]
  have h1 : List.filter (fun i => decide (i ≠ 0 ∧ i ≠ m + 1)) [m + 1] = [] := by
    simp
  have h2 : List.filter (fun i => decide (i ≠ 0 ∧ i ≠ m + 1)) (List.range (m + 1))
      = List.filter (fun i => decide (i ≠ 0)) (List.range (m + 1)) := by
    apply List.filter_congr
    intro i hi
    rw [List.mem_range] at hi
    rw [decide_eq_decide]
    omega
  rw [h1, h2, length_filter_range_ne_zero]
  simp

/-- C7: for every IPv4 prefix length at most 30, the modelled address
enumeration excludes the network address and the broadcast address and
yields exactly `2 ^ (32 - prefix) - 2` host addresses. -/
theorem C7_host_count (net prefixLen : Nat) (hp : prefixLen ≤ 30) :
    (hosts net prefixLen).length = 2 ^ (32 - prefixLen) - 2 ∧
    net ∉ hosts net prefixLen ∧
    (net + (blockSize prefixLen - 1)) ∉ hosts net prefixLen := by
  refine ⟨?_, ?_, ?_⟩
  · have hk : 2 ≤ 32 - prefixLen := by omega
    have hn : 4 ≤ blockSize prefixLen := by
      calc (4 : Nat) = 2 ^ 2 := rfl
        _ ≤ 2 ^ (32 - prefixLen) := Nat.pow_le_pow_right (by norm_num) hk
        _ = blockSize prefixLen := rfl
    obtain ⟨m, hm⟩ : ∃ m, blockSize prefixLen = m + 2 := ⟨blockSize prefixLen - 2, by omega⟩
    have hbs : (2 : Nat) ^ (32 - prefixLen) = blockSize prefixLen := rfl
    rw [hosts, allAddresses, List.filter_map, List.length_map, hbs, hm]
    have hpred : ((fun a => decide (a ≠ net ∧ a ≠ net + (m + 2 - 1)))
          ∘ (fun i => net + i))
        = (fun i => decide (i ≠ 0 ∧ i ≠ m + 1)) := by
      funext i
      simp only [Function.comp_apply, decide_eq_decide]
      omega
    rw [hpred, length_filter_range_interior]
    omega
  · intro hmem
    rw [hosts, List.mem_filter] at hmem
    simp at hmem
  · intro hmem
    rw [hosts, List.mem_filter] at hmem
    simp at hmem

/-- C7, witness: the theorem applied to the /30 block at network address
3232235776 (192.168.1.0), which has exactly two host addresses. -/
theorem C7_host_count_witness :
    (hosts 3232235776 30).length = 2 ^ (32 - 30) - 2 ∧
    3232235776 ∉ hosts 3232235776 30 ∧
    (3232235776 + (blockSize 30 - 1)) ∉ hosts 3232235776 30 :=
  C7_host_count 3232235776 30 (by decide)

/-- C8: single-device provisioning branches on how many devices the full
range probe found: zero devices fail with the none-found diagnostic and
no ID-change request; two or more fail with the multiple-found
diagnostic listing every found device and no ID-change request; exactly
one device causes exactly one ID-change request, and the run succeeds
iff that request returned HTTP 200. -/
theorem C8_provision_requires_exactly_one (probes : List (String × ProbeOutcome))
    (now : String) (ido : IdChangeOutcome) :
    (probes.filterMap (fun p => scan_single_device now p.1 p.2) = [] →
      provision_single_device probes now ido
        = ⟨false, ProvisionDiag.noneFound, 0⟩) ∧
    (2 ≤ (probes.filterMap (fun p => scan_single_device now p.1 p.2)).length →
      provision_single_device probes now ido
        = ⟨false, ProvisionDiag.multipleFound
            (probes.filterMap (fun p => scan_single_device now p.1 p.2)), 0⟩) ∧
    (∀ d, probes.filterMap (fun p => scan_single_device now p.1 p.2) = [d] →
      (provision_single_device probes now ido).idRequests = 1 ∧
      (provision_single_device probes now ido).diag = ProvisionDiag.singleFound d ∧
      ((provision_single_device probes now ido).success = true ↔
        ido = IdChangeOutcome.responded 200)) := by
  refine ⟨?_, ?_, ?_⟩
  · intro h
    simp only [provision_single_device, h]
  · intro h
    rcases hf : probes.filterMap (fun p => scan_single_device now p.1 p.2) with
      _ | ⟨d1, _ | ⟨d2, rest⟩⟩
    · rw [hf] at h
      simp at h
    · rw [hf] at h
      simp at h
    · simp only [provision_single_device, hf]
  · intro d hf
    simp only [provision_single_device, hf]
    refine ⟨trivial, trivial, ?_⟩
    cases ido with
    | responded s =>
        show (s == 200) = true ↔ _
        rw [beq_iff_eq]
        constructor
        · intro h
          subst h
          rfl
        · intro h
          injection h
    | timeout =>
        show false = true ↔ _
        simp
    | exn m =>
        show false = true ↔ _
        simp

/-- C8, witness: the theorem applied to concrete simulated scans — one
address range with no devices, one with exactly one device answered
with HTTP 200, and one with two devices. -/
theorem C8_provision_requires_exactly_one_witness :
    (provision_single_device [("10.0.0.1", ProbeOutcome.timeout)]
        "t0" (IdChangeOutcome.responded 200)
      = ⟨false, ProvisionDiag.noneFound, 0⟩) ∧
    ((provision_single_device
        [("10.0.0.1", ProbeOutcome.timeout),
         ("10.0.0.2", ProbeOutcome.ok [("mac_address", Val.vStr "M1"), ("id", Val.vStr "old")])]
        "t0" (IdChangeOutcome.responded 200)).idRequests = 1 ∧
      (provision_single_device
        [("10.0.0.1", ProbeOutcome.timeout),
         ("10.0.0.2", ProbeOutcome.ok [("mac_address", Val.vStr "M1"), ("id", Val.vStr "old")])]
        "t0" (IdChangeOutcome.responded 200)).diag
        = ProvisionDiag.singleFound
            (device_info "10.0.0.2" [("mac_address", Val.vStr "M1"), ("id", Val.vStr "old")] "t0") ∧
      ((provision_single_device
        [("10.0.0.1", ProbeOutcome.timeout),
         ("10.0.0.2", ProbeOutcome.ok [("mac_address", Val.vStr "M1"), ("id", Val.vStr "old")])]
        "t0" (IdChangeOutcome.responded 200)).success = true ↔
        IdChangeOutcome.responded 200 = IdChangeOutcome.responded 200)) ∧
    (provision_single_device
        [("10.0.0.1", ProbeOutcome.ok [("mac_address", Val.vStr "M1")]),
         ("10.0.0.2", ProbeOutcome.ok [("mac_address", Val.vStr "M2")])]
        "t0" (IdChangeOutcome.responded 200)
      = ⟨false, ProvisionDiag.multipleFound
          ([("10.0.0.1", ProbeOutcome.ok [("mac_address", Val.vStr "M1")]),
            ("10.0.0.2", ProbeOutcome.ok [("mac_address", Val.vStr "M2")])].filterMap
            (fun p => scan_single_device "t0" p.1 p.2)), 0⟩) :=
  ⟨(C8_provision_requires_exactly_one [("10.0.0.1", ProbeOutcome.timeout)]
      "t0" (IdChangeOutcome.responded 200)).1 rfl,
   (C8_provision_requires_exactly_one
      [("10.0.0.1", ProbeOutcome.timeout),
       ("10.0.0.2", ProbeOutcome.ok [("mac_address", Val.vStr "M1"), ("id", Val.vStr "old")])]
      "t0" (IdChangeOutcome.responded 200)).2.2
      (device_info "10.0.0.2" [("mac_address", Val.vStr "M1"), ("id", Val.vStr "old")] "t0") rfl,
   (C8_provision_requires_exactly_one
      [("10.0.0.1", ProbeOutcome.ok [("mac_address", Val.vStr "M1")]),
       ("10.0.0.2", ProbeOutcome.ok [("mac_address", Val.vStr "M2")])]
      "t0" (IdChangeOutcome.responded 200)).2.1 (by decide)⟩

/-- C9: loading the device map returns an empty map when the file is
absent, when it exists but cannot be read or parsed (the catch-all
handler swallows every exception), and when the parsed document's
conversion itself raises (a record with no `mac_address`); hence a scan
in `add` or `update` mode over a corrupted registry merges against an
empty existing map instead of failing. -/
theorem C9_load_swallows_errors :
    load_existing_map LoadSource.absent = [] ∧
    load_existing_map LoadSource.readError = [] ∧
    (∀ devs, keyByMac devs = none →
      load_existing_map (LoadSource.parsed (LoadedJson.withDevices devs)) = [] ∧
      load_existing_map (LoadSource.parsed (LoadedJson.asList devs)) = []) ∧
    (∀ new, merge_device_maps Mode.add (load_existing_map LoadSource.readError) new
          = merge_device_maps Mode.add [] new ∧
        merge_device_maps Mode.update (load_existing_map LoadSource.readError) new
          = merge_device_maps Mode.update [] new) := by
  refine ⟨rfl, rfl, ?_, ?_⟩
  · intro devs h
    constructor <;> simp [load_existing_map, h]
  · intro new
    exact ⟨rfl, rfl⟩

/-- C9, witness: a parsed registry whose single record has no
`mac_address` key loads as the empty map. -/
theorem C9_load_swallows_errors_witness :
    load_existing_map
      (LoadSource.parsed (LoadedJson.withDevices [[("id", Val.vStr "x")]])) = [] ∧
    load_existing_map
      (LoadSource.parsed (LoadedJson.asList [[("id", Val.vStr "x")]])) = [] :=
  C9_load_swallows_errors.2.2.1 [[("id", Val.vStr "x")]] (by decide)

end Loudframe
